import Mathlib

/-!
Verification of the request/authentication/error-normalization pipeline of the
Linear MCP server (Python sources under `src/`).

The Python values that flow through the pipeline (JSON payloads, GraphQL
variables, tool response envelopes) are modeled by the inductive type
`PyValue`; Python dictionaries are association lists in insertion order.
Pure functions of the source (`sanitize_variables`, `get_bearer_token`, the
payload construction and response handling of `execute_query`, and each tool
handler's post-processing) are translated one-to-one.  The network call inside
`execute_query` is the single effect of the pipeline; tool handlers are
therefore modeled as functions of the outcome of that call (and of credential
resolution), which is exactly the data their `try`/`except` bodies consume.
Python exceptions are modeled by the `PyExc` type and `Except`.
-/

namespace SvcMcpLinear

/-- A Python/JSON value: `None`, booleans, integers, strings, lists and
dictionaries (association lists in insertion order, keys unique). -/
inductive PyValue where
  | none : PyValue
  | bool : Bool → PyValue
  | int : Int → PyValue
  | str : String → PyValue
  | list : List PyValue → PyValue
  | dict : List (String × PyValue) → PyValue

/-- A Python dictionary with string keys, as used for GraphQL variables,
parsed JSON objects and response envelopes. -/
abbrev PyDict := List (String × PyValue)

/-- Python `d.get(k)` without default: the first binding of `k`, if any. -/
def dget (d : PyDict) (k : String) : Option PyValue :=
  match d.find? (fun p => p.1 == k) with
  | some p => some p.2
  | Option.none => Option.none

/-- Python `v is None`. -/
def PyValue.isNone : PyValue → Bool
  | PyValue.none => true
  | _ => false

/-- Python truthiness of a value (`bool(v)`). -/
def pyTruthy : PyValue → Bool
  | PyValue.none => false
  | PyValue.bool b => b
  | PyValue.int n => n != 0
  | PyValue.str s => !s.data.isEmpty
  | PyValue.list l => !l.isEmpty
  | PyValue.dict d => !d.isEmpty

/-- A single-quote character, kept out of string literals. -/
def sq : String := String.singleton (Char.ofNat 39)

/-- An opening curly brace, kept out of string literals. -/
def lb : String := String.singleton (Char.ofNat 123)

/-- A closing curly brace, kept out of string literals. -/
def rb : String := String.singleton (Char.ofNat 125)

mutual

/-- Python `str`/`repr` of a value (`repr` for nested values, as Python
prints containers).  Faithful to Python on content free of quotes and escape
characters; `repr`'s escaping of special characters inside strings is not
reproduced, and no theorem below depends on this text. -/
def pyRepr : PyValue → String
  | PyValue.none => "None"
  | PyValue.bool true => "True"
  | PyValue.bool false => "False"
  | PyValue.int n => toString n
  | PyValue.str s => sq ++ s ++ sq
  | PyValue.list l => "[" ++ String.intercalate ", " (pyReprList l) ++ "]"
  | PyValue.dict d => lb ++ String.intercalate ", " (pyReprPairs d) ++ rb

/-- `repr` of the elements of a Python list. -/
def pyReprList : List PyValue → List String
  | [] => []
  | v :: vs => pyRepr v :: pyReprList vs

/-- `repr` of the entries of a Python dictionary. -/
def pyReprPairs : List (String × PyValue) → List String
  | [] => []
  | (k, v) :: ps => (sq ++ k ++ sq ++ ": " ++ pyRepr v) :: pyReprPairs ps

end

/-- A raised Python exception, classified the way the handlers' `except`
clauses classify it: `LinearClientError` (src/client.py lines 17-23, carrying
`message` and `errors`), `ValueError` (carrying `str(e)`), or any other
exception class (e.g. `httpx` transport errors, `KeyError`, `TypeError`),
identified by name. -/
inductive PyExc where
  | linearClientError (message : String) (errors : List PyValue)
  | valueError (message : String)
  | otherError (name : String)

/-- `sanitize_variables` (src/client.py lines 51-62): remove `None` values
from GraphQL variables, keeping every other entry unchanged. -/
def sanitize_variables (vars : PyDict) : PyDict :=
  vars.filter (fun p => !p.2.isNone)

/-- Python `s.split(" ", 1)`: the part before the first space, and the rest
after it when a space exists. -/
def splitOnceSpace : List Char → List Char × Option (List Char)
  | [] => ([], Option.none)
  | c :: rest =>
    if c = ' ' then ([], some rest)
    else
      let r := splitOnceSpace rest
      (c :: r.1, r.2)

/-- Inbound HTTP request headers, lowercase keys. -/
abbrev Headers := List (String × String)

/-- Starlette `request.headers.get(k, "")`. -/
def headerGet (hs : Headers) (k : String) : String :=
  match hs.find? (fun p => p.1 == k) with
  | some p => p.2
  | Option.none => ""

/-- Message of the `ValueError` raised when `get_http_request` fails
(src/client.py line 38). -/
def noActiveRequestMsg : String := "No active HTTP request - cannot extract token"

/-- Message of the `ValueError` raised on an absent or empty Authorization
header (src/client.py line 42). -/
def missingHeaderMsg : String := "Missing Authorization header"

/-- Message of the `ValueError` raised on a malformed Authorization header
(src/client.py line 46); the source text quotes Bearer <token>. -/
def malformedHeaderMsg : String :=
  "Invalid Authorization header format - expected " ++ sq ++ "Bearer <token>" ++ sq

/-- `get_bearer_token` (src/client.py lines 26-48).  The ambient request is
`Option.none` when no HTTP request is active (`get_http_request` raises
`RuntimeError`).  The `ValueError` message is returned as the error.  Python
`parts[0].lower()` is ASCII lowercasing on the schemes of interest, modeled
by `Char.toLower`. -/
def get_bearer_token (request : Option Headers) : Except String String :=
  match request with
  | Option.none => Except.error noActiveRequestMsg
  | some req =>
    let auth_header := headerGet req "authorization"
    if auth_header.data = [] then Except.error missingHeaderMsg
    else
      match splitOnceSpace auth_header.data with
      | (scheme, some value) =>
        if scheme.map Char.toLower = "bearer".data then Except.ok (String.mk value)
        else Except.error malformedHeaderMsg
      | (_, Option.none) => Except.error malformedHeaderMsg

/-- The POST body built by `execute_query` (src/client.py lines 92-94):
`payload = ("query": query)`, and `payload["variables"] = sanitize_variables(variables)`
is added only when the *passed* mapping is truthy, i.e. not `None` and
non-empty before sanitization. -/
def execute_query_payload (query : String) (vars : Option PyDict) : PyDict :=
  match vars with
  | Option.none => [("query", PyValue.str query)]
  | some vs =>
    if vs.isEmpty then [("query", PyValue.str query)]
    else [("query", PyValue.str query), ("variables", PyValue.dict (sanitize_variables vs))]

/-- A Python list comprehension `[f(e) for e in l]` over a fallible `f`:
the first raised exception propagates. -/
def mapExcept {α : Type} (f : PyValue → Except PyExc α) : List PyValue → Except PyExc (List α)
  | [] => Except.ok []
  | v :: vs => do
    let x ← f v
    let xs ← mapExcept f vs
    Except.ok (x :: xs)

/-- One GraphQL error element's `e.get("message", str(e))`
(src/client.py line 114): on a dictionary, the `message` value when the key
is present — whatever its type — else the string form of the dictionary; a
non-dictionary element has no `.get` attribute, so Python raises
`AttributeError`. -/
def errorMessageField (e : PyValue) : Except PyExc PyValue :=
  match e with
  | PyValue.dict d =>
    Except.ok ((dget d "message").getD (PyValue.str (pyRepr (PyValue.dict d))))
  | _ => Except.error (PyExc.otherError "AttributeError")

/-- An element handed to Python string `join`: it must be a `str`, otherwise
`join` raises `TypeError`. -/
def asStr : PyValue → Except PyExc String
  | PyValue.str s => Except.ok s
  | _ => Except.error (PyExc.otherError "TypeError")

/-- Python `"; ".join(ms)` (src/client.py line 116): raises `TypeError` at
the first non-string element, else the semicolon-joined string. -/
def joinSemicolon (ms : List PyValue) : Except PyExc String := do
  let ss ← mapExcept asStr ms
  Except.ok (String.intercalate "; " ss)

/-- Response handling of `execute_query` (src/client.py lines 104-120), for a
response with the given status code, raw body text, and body parsed as a JSON
object.  A non-200 status raises `LinearClientError` with the status and raw
body (line 106); otherwise, if the key `"errors"` is present (the check is
key *presence*, `"errors" in result`), the message of each element is
extracted (line 114, which raises `AttributeError` on a non-dictionary
element) and the messages are joined (line 116, which raises `TypeError` on a
non-string message); when both steps succeed, `LinearClientError` is raised
with the joined text and the raw array, and when either raises, that
exception propagates instead.  Without the `errors` key,
`result.get("data", ())` with an empty-dictionary default is returned.
Iterating a non-list `errors` value also raises in Python. -/
def execute_query_response (status_code : Nat) (text : String) (body : PyDict) :
    Except PyExc PyValue :=
  if status_code ≠ 200 then
    Except.error (PyExc.linearClientError
      ("Linear API returned HTTP " ++ toString status_code ++ ": " ++ text) [])
  else
    match dget body "errors" with
    | some (PyValue.list errs) =>
      match (mapExcept errorMessageField errs).bind joinSemicolon with
      | Except.ok msg =>
        Except.error (PyExc.linearClientError ("GraphQL errors: " ++ msg) errs)
      | Except.error exc => Except.error exc
    | some _ => Except.error (PyExc.otherError "TypeError")
    | Option.none => Except.ok ((dget body "data").getD (PyValue.dict []))

/-- The failure envelope every handler returns,
`("success": False, "error": msg, "isError": True)`. -/
def envelopeFail (msg : String) : PyValue :=
  PyValue.dict [("success", PyValue.bool false), ("error", PyValue.str msg),
    ("isError", PyValue.bool true)]

/-- The `try`/`except` boundary shared by every tool handler (e.g.
src/tools/issues.py lines 143-146): `LinearClientError` is rendered with its
`message`, `ValueError` with `str(e)`; any other exception class has no
`except` clause and propagates. -/
def catchHandlerExc (body : Except PyExc PyValue) : Except PyExc PyValue :=
  match body with
  | Except.ok v => Except.ok v
  | Except.error (PyExc.linearClientError msg _) => Except.ok (envelopeFail msg)
  | Except.error (PyExc.valueError msg) => Except.ok (envelopeFail msg)
  | Except.error e => Except.error e

/-- Python `v.get(k, dflt)` where `v` is expected to be a dictionary; on any
other value Python raises `AttributeError` (no `.get` attribute). -/
def pyGetD (v : PyValue) (k : String) (dflt : PyValue) : Except PyExc PyValue :=
  match v with
  | PyValue.dict d => Except.ok ((dget d k).getD dflt)
  | _ => Except.error (PyExc.otherError "AttributeError")

/-- Python subscription `v[k]` on an expected dictionary: `KeyError` when the
key is absent, `TypeError` on a non-dictionary value. -/
def pySub (v : PyValue) (k : String) : Except PyExc PyValue :=
  match v with
  | PyValue.dict d =>
    match dget d k with
    | some x => Except.ok x
    | Option.none => Except.error (PyExc.otherError "KeyError")
  | _ => Except.error (PyExc.otherError "TypeError")

/-- Python `len(v)` on the sized values that occur here; `TypeError`
otherwise. -/
def pyLen (v : PyValue) : Except PyExc Nat :=
  match v with
  | PyValue.list l => Except.ok l.length
  | PyValue.dict d => Except.ok d.length
  | PyValue.str s => Except.ok s.data.length
  | _ => Except.error (PyExc.otherError "TypeError")

/-- Python iteration over an expected list; iterating the non-list values
that could reach these loops raises, modeled as `TypeError`. -/
def pyIter (v : PyValue) : Except PyExc (List PyValue) :=
  match v with
  | PyValue.list l => Except.ok l
  | _ => Except.error (PyExc.otherError "TypeError")

/-- Truthiness of an optional string parameter (`if team_id:`): `None` and
the empty string are falsy. -/
def truthyOptStr : Option String → Option String
  | some s => if s.data = [] then Option.none else some s
  | Option.none => Option.none

/-- The `my_issues` handler (src/tools/issues.py lines 134-146), as a function
of credential resolution and of the upstream call outcome. -/
def my_issues (tokenRes : Except PyExc String) (exec : Except PyExc PyValue) :
    Except PyExc PyValue :=
  catchHandlerExc (do
    let _ ← tokenRes
    let data ← exec
    let viewer ← pyGetD data "viewer" (PyValue.dict [])
    let assigned ← pyGetD viewer "assignedIssues" (PyValue.dict [])
    let issues ← pyGetD assigned "nodes" (PyValue.list [])
    let n ← pyLen issues
    Except.ok (PyValue.dict [("success", PyValue.bool true), ("issues", issues),
      ("count", PyValue.int n)]))

/-- The `issue` handler (src/tools/issues.py lines 153-175). -/
def issue (identifier : String) (tokenRes : Except PyExc String)
    (exec : Except PyExc PyValue) : Except PyExc PyValue :=
  catchHandlerExc (do
    let _ ← tokenRes
    let data ← exec
    let issue_data ← pyGetD data "issue" PyValue.none
    if issue_data.isNone then
      Except.ok (envelopeFail ("Issue " ++ identifier ++ " not found"))
    else
      Except.ok (PyValue.dict [("success", PyValue.bool true), ("issue", issue_data)]))

/-- The `search` handler (src/tools/issues.py lines 182-203). -/
def search (query : String) (tokenRes : Except PyExc String)
    (exec : Except PyExc PyValue) : Except PyExc PyValue :=
  catchHandlerExc (do
    let _ ← tokenRes
    let data ← exec
    let container ← pyGetD data "issues" (PyValue.dict [])
    let issues ← pyGetD container "nodes" (PyValue.list [])
    let n ← pyLen issues
    Except.ok (PyValue.dict [("success", PyValue.bool true), ("query", PyValue.str query),
      ("issues", issues), ("count", PyValue.int n)]))

/-- The `list_projects` handler (src/tools/issues.py lines 210-231); the
`team_id` parameter only selects which fixed query the upstream call runs, so
the handler is a function of that call's outcome. -/
def list_projects (tokenRes : Except PyExc String) (exec : Except PyExc PyValue) :
    Except PyExc PyValue :=
  catchHandlerExc (do
    let _ ← tokenRes
    let data ← exec
    let container ← pyGetD data "projects" (PyValue.dict [])
    let projects ← pyGetD container "nodes" (PyValue.list [])
    let n ← pyLen projects
    Except.ok (PyValue.dict [("success", PyValue.bool true), ("projects", projects),
      ("count", PyValue.int n)]))

/-- The `list_project_updates` handler (src/tools/issues.py lines 238-269). -/
def list_project_updates (project_id : String) (tokenRes : Except PyExc String)
    (exec : Except PyExc PyValue) : Except PyExc PyValue :=
  catchHandlerExc (do
    let _ ← tokenRes
    let data ← exec
    let project ← pyGetD data "project" PyValue.none
    if project.isNone then
      Except.ok (envelopeFail ("Project " ++ project_id ++ " not found"))
    else
      let updatesCont ← pyGetD project "projectUpdates" (PyValue.dict [])
      let updates ← pyGetD updatesCont "nodes" (PyValue.list [])
      let n ← pyLen updates
      let pid ← pyGetD project "id" PyValue.none
      let pname ← pyGetD project "name" PyValue.none
      Except.ok (PyValue.dict [("success", PyValue.bool true),
        ("project", PyValue.dict [("id", pid), ("name", pname)]),
        ("updates", updates), ("count", PyValue.int n)]))

/-- One entry of the all-teams response of `states`
(src/tools/states.py lines 89-96): note `team["id"]` and `team["name"]` are
subscriptions that can raise `KeyError`. -/
def statesTeamEntry (team : PyValue) : Except PyExc PyValue := do
  let tid ← pySub team "id"
  let tname ← pySub team "name"
  let sc ← pyGetD team "states" (PyValue.dict [])
  let nodes ← pyGetD sc "nodes" (PyValue.list [])
  Except.ok (PyValue.dict [("id", tid), ("name", tname), ("states", nodes)])

/-- The `states` handler (src/tools/states.py lines 57-101). -/
def states (team_id : Option String) (tokenRes : Except PyExc String)
    (exec : Except PyExc PyValue) : Except PyExc PyValue :=
  catchHandlerExc (do
    let _ ← tokenRes
    match truthyOptStr team_id with
    | some tid => do
      let data ← exec
      let team_data ← pyGetD data "team" PyValue.none
      if team_data.isNone then
        Except.ok (envelopeFail ("Team " ++ tid ++ " not found"))
      else
        let tidVal ← pySub team_data "id"
        let tname ← pySub team_data "name"
        let sc ← pyGetD team_data "states" (PyValue.dict [])
        let nodes ← pyGetD sc "nodes" (PyValue.list [])
        Except.ok (PyValue.dict [("success", PyValue.bool true),
          ("team", PyValue.dict [("id", tidVal), ("name", tname)]),
          ("states", nodes)])
    | Option.none => do
      let data ← exec
      let teamsCont ← pyGetD data "teams" (PyValue.dict [])
      let teamsVal ← pyGetD teamsCont "nodes" (PyValue.list [])
      let teams ← pyIter teamsVal
      let entries ← mapExcept statesTeamEntry teams
      Except.ok (PyValue.dict [("success", PyValue.bool true),
        ("teams", PyValue.list entries)]))

/-- The `create_issue` handler's outcome normalization
(src/tools/mutations.py lines 140-158): the variables mapping is built and the
mutation executed; the `issueCreate` payload's own `success` flag is then
tested for truthiness. -/
def create_issue (exec : Except PyExc PyValue) : Except PyExc PyValue :=
  catchHandlerExc (do
    let data ← exec
    let result ← pyGetD data "issueCreate" (PyValue.dict [])
    let s ← pyGetD result "success" PyValue.none
    if pyTruthy s then
      let iss ← pyGetD result "issue" PyValue.none
      Except.ok (PyValue.dict [("success", PyValue.bool true), ("issue", iss)])
    else
      Except.ok (envelopeFail "Issue creation failed"))

/-- The `update_issue` handler's outcome normalization
(src/tools/mutations.py lines 182-199). -/
def update_issue (exec : Except PyExc PyValue) : Except PyExc PyValue :=
  catchHandlerExc (do
    let data ← exec
    let result ← pyGetD data "issueUpdate" (PyValue.dict [])
    let s ← pyGetD result "success" PyValue.none
    if pyTruthy s then
      let iss ← pyGetD result "issue" PyValue.none
      Except.ok (PyValue.dict [("success", PyValue.bool true), ("issue", iss)])
    else
      Except.ok (envelopeFail "Issue update failed"))

/-- The `update_status` handler's outcome normalization
(src/tools/mutations.py lines 212-223). -/
def update_status (exec : Except PyExc PyValue) : Except PyExc PyValue :=
  catchHandlerExc (do
    let data ← exec
    let result ← pyGetD data "issueUpdate" (PyValue.dict [])
    let s ← pyGetD result "success" PyValue.none
    if pyTruthy s then
      let iss ← pyGetD result "issue" PyValue.none
      Except.ok (PyValue.dict [("success", PyValue.bool true), ("issue", iss)])
    else
      Except.ok (envelopeFail "Status update failed"))

/-- The `create_project` handler's outcome normalization
(src/tools/mutations.py lines 243-258). -/
def create_project (exec : Except PyExc PyValue) : Except PyExc PyValue :=
  catchHandlerExc (do
    let data ← exec
    let result ← pyGetD data "projectCreate" (PyValue.dict [])
    let s ← pyGetD result "success" PyValue.none
    if pyTruthy s then
      let proj ← pyGetD result "project" PyValue.none
      Except.ok (PyValue.dict [("success", PyValue.bool true), ("project", proj)])
    else
      Except.ok (envelopeFail "Project creation failed"))

/-- The `create_project_update` handler's outcome normalization
(src/tools/mutations.py lines 276-290). -/
def create_project_update (exec : Except PyExc PyValue) : Except PyExc PyValue :=
  catchHandlerExc (do
    let data ← exec
    let result ← pyGetD data "projectUpdateCreate" (PyValue.dict [])
    let s ← pyGetD result "success" PyValue.none
    if pyTruthy s then
      let upd ← pyGetD result "projectUpdate" PyValue.none
      Except.ok (PyValue.dict [("success", PyValue.bool true), ("projectUpdate", upd)])
    else
      Except.ok (envelopeFail "Project update failed"))

/-- `sub` occurs in `s` as a contiguous substring. -/
def substrOf (sub s : String) : Prop :=
  ∃ l r, s.data = l ++ sub.data ++ r

theorem isNone_false (v : PyValue) : v.isNone = false ↔ v ≠ PyValue.none := by
  cases v <;> simp [PyValue.isNone]

theorem toLower_bearer_no_space (l : List Char)
    (h : l.map Char.toLower = "bearer".data) : ' ' ∉ l := by
  intro hmem
  have h1 : Char.toLower ' ' ∈ l.map Char.toLower := List.mem_map_of_mem _ hmem
  rw [h] at h1
  have h2 : Char.toLower ' ' = ' ' := rfl
  rw [h2] at h1
  exact absurd h1 (by decide)

theorem splitOnceSpace_append (a b : List Char) (h : ' ' ∉ a) :
    splitOnceSpace (a ++ ' ' :: b) = (a, some b) := by
  induction a with
  | nil => simp [splitOnceSpace]
  | cons c a ih =>
    have hc : ¬ (c = ' ') := fun e => h (by rw [← e]; exact List.mem_cons_self c a)
    have ha : ' ' ∉ a := fun hm => h (List.mem_cons_of_mem c hm)
    simp [splitOnceSpace, hc, ih ha]

/-- Claim C4: `sanitize_variables` keeps exactly the entries whose value is
not the null sentinel, unchanged and in order (it is a sub-mapping), and maps
the empty and the all-`None` mappings to the empty mapping. -/
theorem sanitize_variables_spec :
    (∀ (m : PyDict) (k : String) (v : PyValue),
      (k, v) ∈ sanitize_variables m ↔ ((k, v) ∈ m ∧ v ≠ PyValue.none))
  ∧ (∀ m : PyDict, (sanitize_variables m).Sublist m)
  ∧ sanitize_variables [] = []
  ∧ sanitize_variables [("a", PyValue.none), ("b", PyValue.none)] = [] := by
  refine ⟨?_, fun m => List.filter_sublist m, rfl, rfl⟩
  intro m k v
  simp [sanitize_variables, List.mem_filter, isNone_false]

/-- Claim C5: header extraction returns the token of a well-formed Bearer
header with a case-insensitive scheme, and fails with the missing-credential
message on an absent or empty header, the malformed-credential message on a
non-Bearer two-token header, and the no-active-request message when no HTTP
request is live. -/
theorem get_bearer_token_cases :
    get_bearer_token (some [("authorization", "Bearer abc123")]) = Except.ok "abc123"
  ∧ get_bearer_token (some [("authorization", "bearer abc123")]) = Except.ok "abc123"
  ∧ get_bearer_token (some []) = Except.error missingHeaderMsg
  ∧ get_bearer_token (some [("authorization", "")]) = Except.error missingHeaderMsg
  ∧ get_bearer_token (some [("authorization", "Basic abc123")]) =
      Except.error malformedHeaderMsg
  ∧ get_bearer_token Option.none = Except.error noActiveRequestMsg :=
  ⟨rfl, rfl, rfl, rfl, rfl, rfl⟩

/-- Claim C10: for any header `<scheme> <rest>` whose scheme lowercases to
"bearer", `get_bearer_token` returns everything after the *first* space
verbatim — so the returned credential may itself contain spaces or be the
empty string. -/
theorem get_bearer_token_first_space (scheme rest : List Char)
    (h : scheme.map Char.toLower = "bearer".data) :
    get_bearer_token (some [("authorization", String.mk (scheme ++ ' ' :: rest))]) =
      Except.ok (String.mk rest) := by
  have hns : ' ' ∉ scheme := toLower_bearer_no_space scheme h
  have hsplit := splitOnceSpace_append scheme rest hns
  have e1 : get_bearer_token (some [("authorization", String.mk (scheme ++ ' ' :: rest))]) =
      (if (scheme ++ ' ' :: rest) = [] then Except.error missingHeaderMsg
       else
         match splitOnceSpace (scheme ++ ' ' :: rest) with
         | (sch, some value) =>
           if sch.map Char.toLower = "bearer".data then Except.ok (String.mk value)
           else Except.error malformedHeaderMsg
         | (_, Option.none) => Except.error malformedHeaderMsg) := rfl
  rw [e1]
  simp [hsplit, h]

/-- Witness for C10: `"Bearer abc def"` yields the spaced credential
`"abc def"`, and `"Bearer "` yields the empty credential. -/
theorem get_bearer_token_first_space_witness :
    get_bearer_token (some [("authorization", "Bearer abc def")]) = Except.ok "abc def"
  ∧ get_bearer_token (some [("authorization", "Bearer ")]) = Except.ok "" :=
  ⟨get_bearer_token_first_space "Bearer".data "abc def".data (by decide),
   get_bearer_token_first_space "Bearer".data "".data (by decide)⟩

/-- Claim C8: a non-200 response fails with a `LinearClientError` whose
message contains the numeric status code and the raw body text, and the
parsed body is never consulted (the outcome is the same for every body). -/
theorem execute_query_response_http_error (status : Nat) (text : String)
    (body : PyDict) (h : status ≠ 200) :
    execute_query_response status text body =
      Except.error (PyExc.linearClientError
        ("Linear API returned HTTP " ++ toString status ++ ": " ++ text) [])
  ∧ substrOf (toString status)
      ("Linear API returned HTTP " ++ toString status ++ ": " ++ text)
  ∧ substrOf text ("Linear API returned HTTP " ++ toString status ++ ": " ++ text)
  ∧ (∀ body2 : PyDict, execute_query_response status text body =
      execute_query_response status text body2) := by
  refine ⟨by simp [execute_query_response, h], ?_, ?_, ?_⟩
  · exact ⟨"Linear API returned HTTP ".data, (": " ++ text).data,
      by simp [String.data_append, List.append_assoc]⟩
  · exact ⟨("Linear API returned HTTP " ++ toString status ++ ": ").data, [],
      by simp [String.data_append, List.append_assoc]⟩
  · intro body2
    simp [execute_query_response, h]

/-- Witness for C8: status 401 with body "Unauthorized". -/
theorem execute_query_response_http_error_witness :
    execute_query_response 401 "Unauthorized" [] =
      Except.error (PyExc.linearClientError
        "Linear API returned HTTP 401: Unauthorized" [])
  ∧ substrOf "401" "Linear API returned HTTP 401: Unauthorized"
  ∧ substrOf "Unauthorized" "Linear API returned HTTP 401: Unauthorized" := by
  have h := execute_query_response_http_error 401 "Unauthorized" [] (by decide)
  exact ⟨h.1, h.2.1, h.2.2.1⟩

/-- Claim C1 counterexample: an HTTP-200 JSON body whose `errors` array is
*empty* still signals failure — the source tests only key presence
(`"errors" in result`), so the `data` payload is not returned. -/
theorem execute_query_response_empty_errors :
    execute_query_response 200 ""
      [("errors", PyValue.list []), ("data", PyValue.dict [("x", PyValue.int 1)])] =
      Except.error (PyExc.linearClientError "GraphQL errors: " [])
  ∧ execute_query_response 200 ""
      [("errors", PyValue.list []), ("data", PyValue.dict [("x", PyValue.int 1)])] ≠
      Except.ok (PyValue.dict [("x", PyValue.int 1)]) :=
  ⟨rfl, fun hc => Except.noConfusion hc⟩

theorem errors_branch (text : String) (body : PyDict) (l : List PyValue)
    (h : dget body "errors" = some (PyValue.list l)) :
    execute_query_response 200 text body =
      match (mapExcept errorMessageField l).bind joinSemicolon with
      | Except.ok msg =>
        Except.error (PyExc.linearClientError ("GraphQL errors: " ++ msg) l)
      | Except.error exc => Except.error exc := by
  simp [execute_query_response, h]

theorem errors_key_some_fails (text : String) (body : PyDict) (v : PyValue)
    (h : dget body "errors" = some v) :
    ∃ e, execute_query_response 200 text body = Except.error e := by
  cases v with
  | list l =>
    cases hm : (mapExcept errorMessageField l).bind joinSemicolon with
    | ok msg =>
      exact ⟨PyExc.linearClientError ("GraphQL errors: " ++ msg) l,
        by rw [errors_branch text body l h, hm]⟩
    | error exc => exact ⟨exc, by rw [errors_branch text body l h, hm]⟩
  | none => exact ⟨PyExc.otherError "TypeError", by simp [execute_query_response, h]⟩
  | bool b => exact ⟨PyExc.otherError "TypeError", by simp [execute_query_response, h]⟩
  | int n => exact ⟨PyExc.otherError "TypeError", by simp [execute_query_response, h]⟩
  | str s => exact ⟨PyExc.otherError "TypeError", by simp [execute_query_response, h]⟩
  | dict d => exact ⟨PyExc.otherError "TypeError", by simp [execute_query_response, h]⟩

theorem mapExcept_errorMessageField_wf (l : List PyValue) (msgs : List String)
    (hw : List.Forall₂ (fun e m => ∃ d, e = PyValue.dict d ∧
      dget d "message" = some (PyValue.str m)) l msgs) :
    mapExcept errorMessageField l = Except.ok (msgs.map PyValue.str) := by
  induction hw with
  | nil => rfl
  | cons h1 _ ih =>
    obtain ⟨d, rfl, hm⟩ := h1
    simp only [mapExcept, errorMessageField, hm, ih]
    rfl

theorem joinSemicolon_strs (msgs : List String) :
    joinSemicolon (msgs.map PyValue.str) = Except.ok (String.intercalate "; " msgs) := by
  have h : mapExcept asStr (msgs.map PyValue.str) = Except.ok msgs := by
    induction msgs with
    | nil => rfl
    | cons m ms ih =>
      simp only [mapExcept, asStr, List.map, ih]
      rfl
  simp only [joinSemicolon, h]
  rfl

/-- Claim C1 amended: for an HTTP-200 response parsed as a JSON object,
`execute_query` fails iff the body contains the *key* `errors` (even when it
maps to an empty array); when the key is absent the `data` payload (default
empty object) is returned; when every element of the `errors` array is an
object whose `message` is a string, the failure is a `LinearClientError`
carrying the semicolon-joined messages and the raw array; and when
extracting or joining the messages raises (a non-object element, a
non-string message), that exception — not a `LinearClientError` —
propagates. -/
theorem execute_query_response_errors_key (text : String) (body : PyDict) :
    ((∃ e, execute_query_response 200 text body = Except.error e) ↔
      (dget body "errors").isSome)
  ∧ (dget body "errors" = Option.none →
      execute_query_response 200 text body =
        Except.ok ((dget body "data").getD (PyValue.dict [])))
  ∧ (∀ (l : List PyValue) (msgs : List String),
      dget body "errors" = some (PyValue.list l) →
      List.Forall₂ (fun e m => ∃ d, e = PyValue.dict d ∧
        dget d "message" = some (PyValue.str m)) l msgs →
      execute_query_response 200 text body =
        Except.error (PyExc.linearClientError
          ("GraphQL errors: " ++ String.intercalate "; " msgs) l))
  ∧ (∀ (l : List PyValue) (exc : PyExc),
      dget body "errors" = some (PyValue.list l) →
      (mapExcept errorMessageField l).bind joinSemicolon = Except.error exc →
      execute_query_response 200 text body = Except.error exc) := by
  refine ⟨?_, ?_, ?_, ?_⟩
  · cases h : dget body "errors" with
    | none =>
      constructor
      · rintro ⟨e, he⟩
        rw [show execute_query_response 200 text body =
          Except.ok ((dget body "data").getD (PyValue.dict [])) from
            by simp [execute_query_response, h]] at he
        exact Except.noConfusion he
      · intro hb
        simp at hb
    | some v =>
      constructor
      · intro _
        rfl
      · intro _
        exact errors_key_some_fails text body v h
  · intro h
    simp [execute_query_response, h]
  · intro l msgs h hw
    have h1 := mapExcept_errorMessageField_wf l msgs hw
    have hc : (mapExcept errorMessageField l).bind joinSemicolon =
        Except.ok (String.intercalate "; " msgs) := by
      rw [h1]
      exact joinSemicolon_strs msgs
    rw [errors_branch text body l h, hc]
  · intro l exc h hm
    rw [errors_branch text body l h, hm]

/-- Witness for C1 (amended): a body without the `errors` key returns its
`data` payload; a body with one well-formed error yields the joined-message
`LinearClientError`; a body whose `errors` array holds the non-object `5`
raises `AttributeError`, which is not a `LinearClientError`. -/
theorem execute_query_response_errors_key_witness :
    execute_query_response 200 "" [("data", PyValue.dict [("x", PyValue.int 1)])] =
      Except.ok (PyValue.dict [("x", PyValue.int 1)])
  ∧ execute_query_response 200 ""
      [("errors", PyValue.list [PyValue.dict [("message", PyValue.str "Issue not found")]])] =
      Except.error (PyExc.linearClientError "GraphQL errors: Issue not found"
        [PyValue.dict [("message", PyValue.str "Issue not found")]])
  ∧ execute_query_response 200 "" [("errors", PyValue.list [PyValue.int 5])] =
      Except.error (PyExc.otherError "AttributeError") := by
  refine ⟨?_, ?_, ?_⟩
  · exact (execute_query_response_errors_key ""
      [("data", PyValue.dict [("x", PyValue.int 1)])]).2.1 rfl
  · have hw : List.Forall₂ (fun e m => ∃ d, e = PyValue.dict d ∧
        dget d "message" = some (PyValue.str m))
        [PyValue.dict [("message", PyValue.str "Issue not found")]] ["Issue not found"] :=
      List.Forall₂.cons
        ⟨[("message", PyValue.str "Issue not found")], rfl, rfl⟩ List.Forall₂.nil
    exact (execute_query_response_errors_key ""
      [("errors", PyValue.list [PyValue.dict [("message", PyValue.str "Issue not found")]])]).2.2.1
      [PyValue.dict [("message", PyValue.str "Issue not found")]] ["Issue not found"] rfl hw
  · exact (execute_query_response_errors_key ""
      [("errors", PyValue.list [PyValue.int 5])]).2.2.2
      [PyValue.int 5] (PyExc.otherError "AttributeError") rfl rfl

/-- Claim C2 counterexample: a variables mapping that is non-empty but
sanitizes to empty is *not* omitted — the body carries `variables` mapped to
the empty object. -/
theorem execute_query_payload_sends_empty_variables :
    sanitize_variables [("a", PyValue.none)] = []
  ∧ execute_query_payload "q" (some [("a", PyValue.none)]) =
      [("query", PyValue.str "q"), ("variables", PyValue.dict [])]
  ∧ dget (execute_query_payload "q" (some [("a", PyValue.none)])) "variables" =
      some (PyValue.dict []) :=
  ⟨rfl, rfl, rfl⟩

/-- Claim C2 amended: the body always contains `query`; `variables` is
present exactly when the *passed* mapping is truthy (not `None` and non-empty
before sanitization), and then holds the sanitized mapping — which is the
empty object when every value was the null sentinel. -/
theorem execute_query_payload_spec (q : String) :
    execute_query_payload q Option.none = [("query", PyValue.str q)]
  ∧ (∀ vs : PyDict, vs = [] →
      execute_query_payload q (some vs) = [("query", PyValue.str q)])
  ∧ (∀ vs : PyDict, vs ≠ [] → execute_query_payload q (some vs) =
      [("query", PyValue.str q), ("variables", PyValue.dict (sanitize_variables vs))])
  ∧ (∀ vs : Option PyDict,
      dget (execute_query_payload q vs) "query" = some (PyValue.str q)) := by
  refine ⟨rfl, ?_, ?_, ?_⟩
  · intro vs h
    subst h
    rfl
  · intro vs h
    have he : vs.isEmpty = false := by
      cases vs with
      | nil => exact absurd rfl h
      | cons a l => rfl
    simp [execute_query_payload, he]
  · intro vs
    match vs with
    | Option.none => rfl
    | some [] => rfl
    | some (a :: l) => rfl

/-- Witness for C2 (amended): a mapping with a surviving entry is sent
sanitized. -/
theorem execute_query_payload_spec_witness :
    execute_query_payload "q" (some [("id", PyValue.str "ENG-123")]) =
      [("query", PyValue.str "q"),
       ("variables", PyValue.dict [("id", PyValue.str "ENG-123")])] :=
  (execute_query_payload_spec "q").2.2.1 [("id", PyValue.str "ENG-123")] (by simp)

/-- Claim C3 counterexample: an exception that is neither `LinearClientError`
nor `ValueError` — e.g. an `httpx` transport error raised by the POST inside
`execute_query` — matches no `except` clause and escapes the handler instead
of being rendered into a failure envelope. -/
theorem handler_exception_escapes :
    my_issues (Except.ok "tok") (Except.error (PyExc.otherError "httpx.ConnectError")) =
      Except.error (PyExc.otherError "httpx.ConnectError")
  ∧ states (some "T1") (Except.ok "tok")
      (Except.error (PyExc.otherError "httpx.ConnectError")) =
      Except.error (PyExc.otherError "httpx.ConnectError") :=
  ⟨rfl, rfl⟩

/-- Claim C3 amended: every one of the eleven tool handlers routes an
exception raised by credential resolution or by query execution through the
shared `try`/`except` boundary, which renders `LinearClientError` (by its
`message`) and `ValueError` (by `str(e)`) into the failure envelope and lets
an exception of any other class propagate to the framework. -/
theorem handler_error_boundary (msg : String) (errs : List PyValue) (name : String)
    (identifier q pid : String) (exc : PyExc) (r : Except PyExc PyValue) :
    catchHandlerExc (Except.error (PyExc.linearClientError msg errs)) =
      Except.ok (envelopeFail msg)
  ∧ catchHandlerExc (Except.error (PyExc.valueError msg)) = Except.ok (envelopeFail msg)
  ∧ catchHandlerExc (Except.error (PyExc.otherError name)) =
      Except.error (PyExc.otherError name)
  ∧ my_issues (Except.error exc) r = catchHandlerExc (Except.error exc)
  ∧ my_issues (Except.ok "t") (Except.error exc) = catchHandlerExc (Except.error exc)
  ∧ issue identifier (Except.error exc) r = catchHandlerExc (Except.error exc)
  ∧ issue identifier (Except.ok "t") (Except.error exc) =
      catchHandlerExc (Except.error exc)
  ∧ search q (Except.error exc) r = catchHandlerExc (Except.error exc)
  ∧ search q (Except.ok "t") (Except.error exc) = catchHandlerExc (Except.error exc)
  ∧ list_projects (Except.error exc) r = catchHandlerExc (Except.error exc)
  ∧ list_projects (Except.ok "t") (Except.error exc) = catchHandlerExc (Except.error exc)
  ∧ list_project_updates pid (Except.error exc) r = catchHandlerExc (Except.error exc)
  ∧ list_project_updates pid (Except.ok "t") (Except.error exc) =
      catchHandlerExc (Except.error exc)
  ∧ states (some "T1") (Except.error exc) r = catchHandlerExc (Except.error exc)
  ∧ states (some "T1") (Except.ok "t") (Except.error exc) =
      catchHandlerExc (Except.error exc)
  ∧ states Option.none (Except.error exc) r = catchHandlerExc (Except.error exc)
  ∧ states Option.none (Except.ok "t") (Except.error exc) =
      catchHandlerExc (Except.error exc)
  ∧ create_issue (Except.error exc) = catchHandlerExc (Except.error exc)
  ∧ update_issue (Except.error exc) = catchHandlerExc (Except.error exc)
  ∧ update_status (Except.error exc) = catchHandlerExc (Except.error exc)
  ∧ create_project (Except.error exc) = catchHandlerExc (Except.error exc)
  ∧ create_project_update (Except.error exc) = catchHandlerExc (Except.error exc) :=
  ⟨rfl, rfl, rfl, rfl, rfl, rfl, rfl, rfl, rfl, rfl, rfl, rfl, rfl, rfl, rfl, rfl,
   rfl, rfl, rfl, rfl, rfl, rfl⟩

/-- Claim C6: each singular-entity lookup maps an upstream null entity to its
domain not-found envelope, as a successful (non-exceptional) return. -/
theorem not_found_envelopes (identifier team_id project_id : String)
    (h : team_id.data ≠ []) :
    issue identifier (Except.ok "t") (Except.ok (PyValue.dict [("issue", PyValue.none)])) =
      Except.ok (envelopeFail ("Issue " ++ identifier ++ " not found"))
  ∧ states (some team_id) (Except.ok "t")
      (Except.ok (PyValue.dict [("team", PyValue.none)])) =
      Except.ok (envelopeFail ("Team " ++ team_id ++ " not found"))
  ∧ list_project_updates project_id (Except.ok "t")
      (Except.ok (PyValue.dict [("project", PyValue.none)])) =
      Except.ok (envelopeFail ("Project " ++ project_id ++ " not found")) := by
  have ht : truthyOptStr (some team_id) = some team_id := by
    simp [truthyOptStr, h]
  refine ⟨rfl, ?_, rfl⟩
  unfold states
  rw [ht]
  rfl

/-- Witness for C6: identifier "ENG-999" with upstream null issue, team "T1"
with upstream null team. -/
theorem not_found_envelopes_witness :
    issue "ENG-999" (Except.ok "t") (Except.ok (PyValue.dict [("issue", PyValue.none)])) =
      Except.ok (envelopeFail "Issue ENG-999 not found")
  ∧ states (some "T1") (Except.ok "t")
      (Except.ok (PyValue.dict [("team", PyValue.none)])) =
      Except.ok (envelopeFail "Team T1 not found") := by
  have h := not_found_envelopes "ENG-999" "T1" "P1" (by decide)
  exact ⟨h.1, h.2.1⟩

/-- Claim C7: every mutation handler turns an upstream payload whose embedded
`success` flag is `false` into the failure envelope carrying that mutation's
fixed domain message, whatever partial entity data came back. -/
theorem mutation_success_false (issueVal projVal updVal : PyValue) :
    create_issue (Except.ok (PyValue.dict [("issueCreate",
      PyValue.dict [("success", PyValue.bool false), ("issue", issueVal)])])) =
      Except.ok (envelopeFail "Issue creation failed")
  ∧ update_issue (Except.ok (PyValue.dict [("issueUpdate",
      PyValue.dict [("success", PyValue.bool false), ("issue", issueVal)])])) =
      Except.ok (envelopeFail "Issue update failed")
  ∧ update_status (Except.ok (PyValue.dict [("issueUpdate",
      PyValue.dict [("success", PyValue.bool false), ("issue", issueVal)])])) =
      Except.ok (envelopeFail "Status update failed")
  ∧ create_project (Except.ok (PyValue.dict [("projectCreate",
      PyValue.dict [("success", PyValue.bool false), ("project", projVal)])])) =
      Except.ok (envelopeFail "Project creation failed")
  ∧ create_project_update (Except.ok (PyValue.dict [("projectUpdateCreate",
      PyValue.dict [("success", PyValue.bool false), ("projectUpdate", updVal)])])) =
      Except.ok (envelopeFail "Project update failed") :=
  ⟨rfl, rfl, rfl, rfl, rfl⟩

/-- Claim C9: every collection-lookup handler returns the upstream nodes
unmodified together with a `count` equal to their number. -/
theorem collection_count (nodes : List PyValue) :
    my_issues (Except.ok "t") (Except.ok (PyValue.dict [("viewer", PyValue.dict
      [("assignedIssues", PyValue.dict [("nodes", PyValue.list nodes)])])])) =
      Except.ok (PyValue.dict [("success", PyValue.bool true),
        ("issues", PyValue.list nodes), ("count", PyValue.int nodes.length)])
  ∧ search "q" (Except.ok "t") (Except.ok (PyValue.dict [("issues", PyValue.dict
      [("nodes", PyValue.list nodes)])])) =
      Except.ok (PyValue.dict [("success", PyValue.bool true), ("query", PyValue.str "q"),
        ("issues", PyValue.list nodes), ("count", PyValue.int nodes.length)])
  ∧ list_projects (Except.ok "t") (Except.ok (PyValue.dict [("projects", PyValue.dict
      [("nodes", PyValue.list nodes)])])) =
      Except.ok (PyValue.dict [("success", PyValue.bool true),
        ("projects", PyValue.list nodes), ("count", PyValue.int nodes.length)])
  ∧ list_project_updates "P1" (Except.ok "t") (Except.ok (PyValue.dict [("project",
      PyValue.dict [("id", PyValue.str "P1"), ("name", PyValue.str "N"),
        ("projectUpdates", PyValue.dict [("nodes", PyValue.list nodes)])])])) =
      Except.ok (PyValue.dict [("success", PyValue.bool true),
        ("project", PyValue.dict [("id", PyValue.str "P1"), ("name", PyValue.str "N")]),
        ("updates", PyValue.list nodes), ("count", PyValue.int nodes.length)]) :=
  ⟨rfl, rfl, rfl, rfl⟩

end SvcMcpLinear
